import Mathlib

/-!
Shallow embedding of `nisarcryodb/nisarStation.py` (class `nisarStation`).

Modelling conventions:
* Machine floats are modelled as exact rationals (`ℚ`).
* Python `datetime` values are modelled as rational numbers of seconds on the
  proleptic Gregorian axis, measured from midnight January 1 of year 1
  (`jan1Sec y` is `datetime(y, 1, 1)`); `timedelta(hours=h)` adds `h * 3600`,
  `timedelta(seconds=s)` adds `s`.  This matches Python's ordinal arithmetic.
* Raising an exception is modelled with `Except String`; the string carries the
  Python exception name.
* `numpy` arrays are modelled as `List ℚ`; `np.argsort` is modelled as a sort
  of the index list by value (any value-ascending permutation of the indices
  realises `np.argsort`; the theorems below use only that property).
* Python's `float(token)` is external input parsing, so a token of an input
  file is modelled as its text together with the value `float` would return
  (`none` when `float` raises `ValueError`).
-/

namespace NisarStation

/-- Python `int()` applied to a rational: truncation toward zero. -/
def pyInt (q : ℚ) : ℤ :=
  if q < 0 then -(⌊-q⌋) else ⌊q⌋

/-- `calendar.isleap` from the Python standard library. -/
def isleap (y : ℤ) : Bool :=
  y % 4 == 0 && (y % 100 != 0 || y % 400 == 0)

/-- Number of days strictly before January 1 of year `y` in the proleptic
Gregorian calendar (the `datetime` ordinal of Jan 1, less one). -/
def daysBefore (y : ℤ) : ℤ :=
  365 * (y - 1) + (y - 1).fdiv 4 - (y - 1).fdiv 100 + (y - 1).fdiv 400

/-- `datetime(y, 1, 1, 0, 0, 0)` on the seconds axis. -/
def jan1Sec (y : ℤ) : ℚ :=
  (daysBefore y * 86400 : ℤ)

/-- `np.rint`: round to the nearest integer, ties to even. -/
def rint (q : ℚ) : ℤ :=
  let f := ⌊q⌋
  let r := q - f
  if r < 1/2 then f
  else if 1/2 < r then f + 1
  else if f % 2 = 0 then f else f + 1

/-- One whitespace-separated token of an input line: its text `s` and the
rational `float(s)` would produce (`none` when `float` raises). -/
structure Token where
  s : String
  val : Option ℚ
deriving DecidableEq

/-- Python `float(tok)`: the parsed value, or a `ValueError`. -/
def floatTok (t : Token) : Except String ℚ :=
  match t.val with
  | some q => .ok q
  | none => .error "ValueError: could not convert string to float"

/-- The condition under which `_readFile` prints its skipping warning for a
line (`len(pieces) != 6 or self.stationID != pieces[-1].strip()`); tokens come
from `str.split()`, so `strip()` is the identity on them. -/
def warnsOn (stationID : String) (toks : List Token) : Bool :=
  toks.length != 6 || stationID != ((toks.getLast?).map Token.s).getD ""

/-- A syntactically valid, station-matching line: six fields, the trailing
token equals the station code, and the five leading fields parse as floats. -/
def validLine (stationID : String) (toks : List Token) : Bool :=
  toks.length == 6 && stationID == ((toks.getLast?).map Token.s).getD ""
    && (toks.dropLast).all (fun t => t.val.isSome)

/-- The comprehension `[float(x) for x in ...]`: left to right, the first
`ValueError` aborts. -/
def floatList : List Token → Except String (List ℚ)
  | [] => .ok []
  | t :: ts =>
    match floatTok t with
    | .error e => .error e
    | .ok v =>
      match floatList ts with
      | .error e => .error e
      | .ok vs => .ok (v :: vs)

/-- The per-line body of `_readFile`.  Note that the source prints a warning
for malformed or station-mismatched lines but has no `continue`: every line is
parsed and appended regardless.  Returns the computed `datetime` and the list
`lineData = [float(x) for x in pieces[0:-1]]`; raises (`ValueError` from
`float`, or `IndexError` from `lineData[0]` on a line with at most one token).
-/
def processLine (toks : List Token) : Except String (ℚ × List ℚ) :=
  match floatList toks.dropLast with
  | .error e => .error e
  | .ok [] => .error "IndexError: list index out of range"
  | .ok (e :: rest) =>
    let year := pyInt e
    let sec := rint ((e - (year : ℚ)) * (365 + (if isleap year then 1 else 0)) * 86400)
    .ok (jan1Sec year + (sec : ℚ), e :: rest)

/-- One sample row as returned by `_readFile` after the transpose:
(date, epoch, lat, lon, z, sigma). -/
structure Row where
  date : ℚ
  epoch : ℚ
  lat : ℚ
  lon : ℚ
  z : ℚ
  sigma : ℚ
deriving DecidableEq

/-- Build a `Row` from the computed date and a length-5 `lineData`. -/
def rowOf (d : ℚ) (l : List ℚ) : Row :=
  ⟨d, l.getD 0 0, l.getD 1 0, l.getD 2 0, l.getD 3 0, l.getD 4 0⟩

/-- The `for line in fpGPS` loop of `_readFile`: lines processed in order,
the first exception aborts the whole read. -/
def readLines : List (List Token) → Except String (List (ℚ × List ℚ))
  | [] => .ok []
  | l :: ls =>
    match processLine l with
    | .error e => .error e
    | .ok r =>
      match readLines ls with
      | .error e => .error e
      | .ok rs => .ok (r :: rs)

/-- `_readFile`, over the list of (tokenised) lines of the file.  After the
per-line loop the source runs `epoch, lat, lon, z, sigma = np.transpose(newData)`:
this unpacking raises when the file produced no rows, and the transpose (or the
unpack) raises when the rows do not uniformly have five numeric fields. -/
def readFile (lines : List (List Token)) : Except String (List Row) :=
  match readLines lines with
  | .error e => .error e
  | .ok [] => .error "ValueError: not enough values to unpack"
  | .ok (r :: rs) =>
    if (r :: rs).all (fun q => q.2.length == 5) then
      .ok ((r :: rs).map (fun q => rowOf q.1 q.2))
    else
      .error "ValueError: inhomogeneous transpose"

/-- The mutable state of a `nisarStation` instance.  `lltoxy` records the EPSG
code the geographic→planar transformer was built from (`none` before it is
constructed, mirroring `self.lltoxy is None`). -/
structure Station where
  stationID : String
  date : List ℚ
  epoch : List ℚ
  lat : List ℚ
  lon : List ℚ
  x : List ℚ
  y : List ℚ
  z : List ℚ
  sigma3 : List ℚ
  epsg : Option ℤ
  lltoxy : Option ℤ
  meanLat : ℚ
  projLengthScale : ℚ
deriving DecidableEq

/-- `__init__(stationID, epsg)`: empty buffers, optional EPSG, no transform.
`meanLat`/`projLengthScale` do not exist yet on the Python object; they are
given inert zero defaults here and are only read after an `addData` sets them.
-/
def mkStation (stationID : String) (epsg : Option ℤ := none) : Station :=
  ⟨stationID, [], [], [], [], [], [], [], [], epsg, none, 0, 0⟩

/-- Truth value of the numpy boolean array `arr > c` when used in an `if`:
empty arrays are falsy (legacy numpy behaviour), one-element arrays compare
their element, larger arrays raise `ValueError` (ambiguous truth value). -/
def npTruthGT (arr : List ℚ) (c : ℚ) : Except String Bool :=
  match arr with
  | [] => .ok false
  | [a] => .ok (decide (c < a))
  | _ :: _ :: _ => .error "ValueError: truth value of an array is ambiguous"

/-- `_determineEPSG(lat)`.  Faithful to the source: the northern branch tests
`self.lat > 55` (the stored latitude array) instead of the `lat` argument, and
`pyproj.CRS.from_epsg(str(self.epsg))` raises when `self.epsg` is still `None`.
On success `self.crs`/`self.proj` are rebuilt from the (unchanged) EPSG code
and `self.lltoxy` is constructed once. -/
def determineEPSG (st : Station) (lat : ℚ) : Except String Station :=
  let branch : Except String (Option ℤ) :=
    match st.epsg with
    | some e => .ok (some e)
    | none =>
      if lat < -55 then .ok (some (3031 : ℤ))
      else
        match npTruthGT st.lat 55 with
        | .error e => .error e
        | .ok b => .ok (if b then some (3413 : ℤ) else none)
  match branch with
  | .error e => .error e
  | .ok none => .error "pyproj CRSError: from_epsg could not parse None"
  | .ok (some e) =>
    .ok { st with epsg := some e,
                  lltoxy := match st.lltoxy with
                            | some t => some t
                            | none => some e }

/-- `np.argsort` over a value list, modelled as a (stable) sort of the index
list by value.  (`np.argsort` returns some value-ascending permutation of the
indices; the theorems below use only sortedness and permutation.) -/
def argsort (l : List ℚ) : List ℕ :=
  List.insertionSort (fun i j => l.getD i 0 ≤ l.getD j 0) (List.range l.length)

/-- Fancy indexing `l[idx]`. -/
def gets (l : List ℚ) (idx : List ℕ) : List ℚ :=
  idx.map (fun i => l.getD i 0)

/-- `np.mean` (the empty case, `nan` in numpy, is never reached by callers
below with nonempty input; in `ℚ` it degenerates to `0`). -/
def mean (l : List ℚ) : ℚ :=
  l.sum / (l.length : ℚ)

/-- The append stage of `addData` (source lines 143–152): read the file, fix
the EPSG/transform, project the new latitudes/longitudes, and prepend the new
batch to every stored field (`np.append(data, getattr(self, var))` puts the
new data first).  `proj e lat lon` stands for the pyproj transformer built
from EPSG `e`. -/
def addDataMerge (proj : ℤ → ℚ → ℚ → ℚ × ℚ) (st : Station)
    (lines : List (List Token)) : Except String (Station × List Row) :=
  match readFile lines with
  | .error e => .error e
  | .ok rows =>
    let newLat := rows.map Row.lat
    match determineEPSG st (newLat.getD 0 0) with
    | .error e => .error e
    | .ok st1 =>
      let e := st1.lltoxy.getD 0
      let xy := (newLat.zip (rows.map Row.lon)).map (fun p => proj e p.1 p.2)
      .ok ({ st1 with
               date := rows.map Row.date ++ st1.date
               epoch := rows.map Row.epoch ++ st1.epoch
               lat := newLat ++ st1.lat
               lon := rows.map Row.lon ++ st1.lon
               x := xy.map Prod.fst ++ st1.x
               y := xy.map Prod.snd ++ st1.y
               z := rows.map Row.z ++ st1.z
               sigma3 := rows.map Row.sigma ++ st1.sigma3 }, rows)

/-- The re-sort stage of `addData` (source lines 156–160): one permutation,
`np.argsort(self.epoch)`, applied to all eight field arrays. -/
def sortByEpoch (st : Station) : Station :=
  let idx := argsort st.epoch
  { st with
      date := gets st.date idx
      epoch := gets st.epoch idx
      lat := gets st.lat idx
      lon := gets st.lon idx
      x := gets st.x idx
      y := gets st.y idx
      z := gets st.z idx
      sigma3 := gets st.sigma3 idx }

/-- `addData(filePath)`.  `pscale e lat` stands for
`pyproj.Proj(e).get_factors(0, lat).parallel_scale`; the mean latitude is
taken over the newly added batch only. -/
def addData (proj : ℤ → ℚ → ℚ → ℚ × ℚ) (pscale : ℤ → ℚ → ℚ) (st : Station)
    (lines : List (List Token)) : Except String Station :=
  match addDataMerge proj st lines with
  | .error e => .error e
  | .ok (merged, rows) =>
    let sorted := sortByEpoch merged
    let mLat := mean (rows.map Row.lat)
    .ok { sorted with
            meanLat := mLat
            projLengthScale := pscale (sorted.epsg.getD 0) mLat }

/-- The value returned by `subsetXYZ`: either the 3-component
`(np.nan, np.nan, np.nan)` sentinel, or the 5-component data tuple
`(date, x, y, z, epoch)`. -/
inductive SubsetResult where
  | nan3 : SubsetResult
  | data5 (date x y z epoch : List ℚ) : SubsetResult
deriving DecidableEq

/-- Number of components of the Python tuple `subsetXYZ` returns. -/
def numComponents : SubsetResult → ℕ
  | .nan3 => 3
  | .data5 _ _ _ _ _ => 5

/-- Boolean-mask indexing `l[mask]`. -/
def maskFilter {α : Type} (mask : List Bool) (l : List α) : List α :=
  (mask.zip l).filterMap (fun p => if p.1 then some p.2 else none)

/-- The in-range mask `np.logical_and(self.date >= date1, self.date <= date2)`. -/
def inRangeMask (st : Station) (date1 date2 : ℚ) : List Bool :=
  st.date.map (fun d => decide (date1 ≤ d) && decide (d ≤ date2))

/-- `inRange.sum()`: the number of samples in the closed window. -/
def inRangeCount (st : Station) (date1 date2 : ℚ) : ℕ :=
  (inRangeMask st date1 date2).count true

/-- `subsetXYZ(date1, date2, minPoints)` (dates already as timestamps; the
string-parsing branch of `_formatDate` is not exercised by the claims). -/
def subsetXYZ (st : Station) (date1 date2 : ℚ) (minPoints : ℕ := 1) :
    SubsetResult :=
  let mask := inRangeMask st date1 date2
  if mask.count true < minPoints then .nan3
  else .data5 (maskFilter mask st.date) (maskFilter mask st.x)
    (maskFilter mask st.y) (maskFilter mask st.z) (maskFilter mask st.epoch)

/-- The slope returned by `scipy.stats.linregress(xs, ys)`; raises
`ValueError` when all `xs` are identical (zero variance).  The intercept,
correlation and significance outputs are discarded by the callers. -/
def linregressSlope (xs ys : List ℚ) : Except String ℚ :=
  let mx := mean xs
  let my := mean ys
  let ssxm := (xs.map (fun a => (a - mx) ^ 2)).sum
  let ssxy := ((xs.zip ys).map (fun p => (p.1 - mx) * (p.2 - my))).sum
  if ssxm = 0 then .error "ValueError: all x values are identical"
  else .ok (ssxy / ssxm)

/-- The Python message of unpacking a 3-tuple into five variables. -/
def unpackMsg : String :=
  "ValueError: not enough values to unpack"

/-- `computeVelocity(date1, date2, minPoints)`.  Faithful to the source:
`minPoints` is accepted but NOT forwarded to `subsetXYZ` (which therefore uses
its own default of 1), and the 5-variable unpacking of `subsetXYZ`'s result
raises `ValueError` on the 3-component sentinel, making the
`if x is np.nan` guard unreachable. -/
def computeVelocity (st : Station) (date1 date2 : ℚ) (minPoints : ℕ := 10) :
    Except String (ℚ × ℚ) :=
  match subsetXYZ st date1 date2 1 with
  | .nan3 => .error unpackMsg
  | .data5 _ xs ys _ es =>
    match linregressSlope es xs with
    | .error e => .error e
    | .ok vxPS =>
      match linregressSlope es ys with
      | .error e => .error e
      | .ok vyPS => .ok (vxPS / st.projLengthScale, vyPS / st.projLengthScale)

/-- `computeVelocityPtToPt(date1, date2, minPoints, averagingPeriod)`.  Here
`minPoints` IS forwarded to both `subsetXYZ` calls; the 5-variable unpacking
again raises on the 3-component sentinel.  (When the two mean epochs
coincide the numpy float division yields inf/nan without raising; in `ℚ`
division by zero degenerates to 0 — no claim depends on that value.) -/
def computeVelocityPtToPt (st : Station) (date1 date2 : ℚ)
    (minPoints : ℕ := 10) (averagingPeriod : ℚ := 12) : Except String (ℚ × ℚ) :=
  let tAvg := averagingPeriod * 3600
  match subsetXYZ st (date1 - tAvg) (date1 + tAvg) minPoints with
  | .nan3 => .error unpackMsg
  | .data5 _ x1 y1 _ e1 =>
    match subsetXYZ st (date2 - tAvg) (date2 + tAvg) minPoints with
    | .nan3 => .error unpackMsg
    | .data5 _ x2 y2 _ e2 =>
      let dT := mean e2 - mean e1
      let vxPS := (mean x2 - mean x1) / dT
      let vyPS := (mean y2 - mean y1) / dT
      .ok (vxPS / st.projLengthScale, vyPS / st.projLengthScale)

/-- The `if method == 'regression' / elif method == 'point'` dispatch inside
the loop body of `computeVelocityTimeSeries`.  With any other method neither
branch assigns `vx`/`vy`, and the subsequent `vxSeries.append(vx)` raises
`NameError`. -/
def stepVel (st : Station) (method : String) (dT avgP cur : ℚ) :
    Except String (ℚ × ℚ) :=
  if method = "regression" then
    computeVelocity st cur (cur + dT * 3600)
  else if method = "point" then
    computeVelocityPtToPt st cur (cur + dT * 3600) 10 avgP
  else
    .error "NameError: name vx is not defined"

/-- The `while` loop of `computeVelocityTimeSeries` (source lines 339–354),
with explicit fuel standing in for the loop's unbounded iteration; every
theorem below either supplies sufficient fuel or hypothesises a normal
return. -/
def tsLoop (st : Station) (method : String) (date2 dT sampleInterval avgP : ℚ) :
    ℕ → ℚ → List ℚ → List ℚ → List ℚ →
    Except String (List ℚ × List ℚ × List ℚ)
  | 0, _, _, _, _ => .error "fuel exhausted"
  | fuel + 1, cur, ds, vxs, vys =>
    if cur + dT * 3600 < date2 then
      match stepVel st method dT avgP cur with
      | .error e => .error e
      | .ok v =>
        tsLoop st method date2 dT sampleInterval avgP fuel
          (cur + sampleInterval * 3600)
          (ds ++ [cur + dT * 1800]) (vxs ++ [v.1]) (vys ++ [v.2])
    else
      .ok (ds, vxs, vys)

/-- `computeVelocityTimeSeries(date1, date2, dT, sampleInterval, method,
averagingPeriod)`.  Faithful to the source: an unrecognised method only
PRINTS the error (collected in the first component) and execution continues
into the loop.  `averagingPeriod` defaults to `dT/24` on the `point` branch.
-/
def computeVelocityTimeSeries (st : Station) (date1 date2 dT sampleInterval : ℚ)
    (method : String := "regression") (averagingPeriod : Option ℚ := none)
    (fuel : ℕ := 1000) :
    List String × Except String (List ℚ × List ℚ × List ℚ) :=
  let warnings :=
    if method ≠ "point" ∧ method ≠ "regression" then
      ["Invalid method " ++ method ++ " keyword, must be point or regression"]
    else []
  let avgP :=
    if method = "point" then averagingPeriod.getD (dT / 24)
    else averagingPeriod.getD 0
  (warnings, tsLoop st method date2 dT sampleInterval avgP fuel date1 [] [] [])

/-! ### Window-start generators for the sliding-window time series

`windowStarts` reproduces the loop control of the source
(`while currentDate + timedelta(hours=dT) < date2`, strict).
`claimWindowStarts` follows the specification's words instead — one window
per start "until the window start plus dT hours would exceed date2", i.e.
including a window whose end lands exactly on `date2` — and is used to
compare the two. -/

/-- Start times generated by the source's loop: steps of `sampleInterval`
hours from the initial date while `start + dT` hours is strictly before
`date2`. -/
def windowStarts (date2 dT sampleInterval : ℚ) : ℕ → ℚ → List ℚ
  | 0, _ => []
  | fuel + 1, cur =>
    if cur + dT * 3600 < date2 then
      cur :: windowStarts date2 dT sampleInterval fuel (cur + sampleInterval * 3600)
    else []

/-- Start times as the specification words them: every start until
`start + dT` hours would exceed `date2` (so a window ending exactly at
`date2` is still evaluated). -/
def claimWindowStarts (date2 dT sampleInterval : ℚ) : ℕ → ℚ → List ℚ
  | 0, _ => []
  | fuel + 1, cur =>
    if cur + dT * 3600 ≤ date2 then
      cur :: claimWindowStarts date2 dT sampleInterval fuel (cur + sampleInterval * 3600)
    else []

/-- Claim C7 as stated, specialised to the `regression` method at given
inputs: on a normal return the midpoint series is one entry, `start + dT/2`
hours, per claimed start, and the three series are index-aligned. -/
def C7ClaimAt (st : Station) (d1 d2 dT sI : ℚ) (fuel : ℕ) : Prop :=
  ∀ ds vxs vys,
    (computeVelocityTimeSeries st d1 d2 dT sI "regression" none fuel).2 =
      .ok (ds, vxs, vys) →
    ds = (claimWindowStarts d2 dT sI fuel d1).map (fun s => s + dT * 1800) ∧
    ds.length = vxs.length ∧ ds.length = vys.length

/-! ### Concrete inputs used by the evaluation theorems and witnesses -/

/-- A numeric token: text plus the value `float` parses from it. -/
def tokN (s : String) (v : ℚ) : Token := ⟨s, some v⟩

/-- A non-numeric token (`float` raises on it). -/
def tokS (s : String) : Token := ⟨s, none⟩

/-- `4.0 -75.0 1.0 100 0.01 NIT3` (year 4 keeps the calendar arithmetic
small; the model is uniform in the year). -/
def ln1 : List Token :=
  [tokN "4.0" 4, tokN "-75.0" (-75), tokN "1.0" 1,
   tokN "100" 100, tokN "0.01" (1/100), tokS "NIT3"]

/-- `5.0 -76.0 2.0 200 0.02 NIT3`. -/
def ln2 : List Token :=
  [tokN "5.0" 5, tokN "-76.0" (-76), tokN "2.0" 2,
   tokN "200" 200, tokN "0.02" (1/50), tokS "NIT3"]

/-- `6.0 -77.0 3.0 300 0.03 NIT3`. -/
def ln3 : List Token :=
  [tokN "6.0" 6, tokN "-77.0" (-77), tokN "3.0" 3,
   tokN "300" 300, tokN "0.03" (3/100), tokS "NIT3"]

/-- A six-field line whose trailing station code is `XXXX`, not `NIT3`:
`4.5 -75.0 0.0 100 0.01 XXXX`. -/
def lnBad : List Token :=
  [tokN "4.5" (9/2), tokN "-75.0" (-75), tokN "0.0" 0,
   tokN "100" 100, tokN "0.01" (1/100), tokS "XXXX"]

/-- A five-field line (wrong field count, four numeric fields then the
station code): `4.0 -75.0 1.0 0.01 NIT3`. -/
def lnShort : List Token :=
  [tokN "4.0" 4, tokN "-75.0" (-75), tokN "1.0" 1,
   tokN "0.01" (1/100), tokS "NIT3"]

/-- A northern-hemisphere line, seed latitude 70°N:
`4.0 70.0 0.0 100 0.01 NIT3`. -/
def lnNorth : List Token :=
  [tokN "4.0" 4, tokN "70.0" 70, tokN "0.0" 0,
   tokN "100" 100, tokN "0.01" (1/100), tokS "NIT3"]

/-- A concrete geographic→planar transform standing in for the pyproj
transformer (the claims are independent of its values): x = lon, y = lat. -/
def projEx : ℤ → ℚ → ℚ → ℚ × ℚ := fun _ la lo => (lo, la)

/-- A concrete parallel-scale function standing in for
`Proj.get_factors(...).parallel_scale`. -/
def pscaleEx : ℤ → ℚ → ℚ := fun _ _ => 1

/-- The station state `addData(projEx, pscaleEx)` produces from the file
`[ln3, ln1, ln2]` (epochs arrive as 6, 4, 5 and are re-sorted to 4, 5, 6;
`jan1Sec 4 = 94608000`, `jan1Sec 5 = 126230400`, `jan1Sec 6 = 157766400`). -/
def stEx : Station :=
  { stationID := "NIT3"
    date := [94608000, 126230400, 157766400]
    epoch := [4, 5, 6]
    lat := [-75, -76, -77]
    lon := [1, 2, 3]
    x := [1, 2, 3]
    y := [-75, -76, -77]
    z := [100, 200, 300]
    sigma3 := [1/100, 1/50, 3/100]
    epsg := some 3031
    lltoxy := some 3031
    meanLat := -76
    projLengthScale := 1 }

/-- The station state `addData(projEx, pscaleEx)` produces from `stEx` and a
second file consisting of `ln1` alone (the new sample is prepended, then the
joint re-sort leaves the duplicate epoch-4 samples first). -/
def stEx2 : Station :=
  { stationID := "NIT3"
    date := [94608000, 94608000, 126230400, 157766400]
    epoch := [4, 4, 5, 6]
    lat := [-75, -75, -76, -77]
    lon := [1, 1, 2, 3]
    x := [1, 1, 2, 3]
    y := [-75, -75, -76, -77]
    z := [100, 100, 200, 300]
    sigma3 := [1/100, 1/100, 1/50, 3/100]
    epsg := some 3031
    lltoxy := some 3031
    meanLat := -75
    projLengthScale := 1 }

/-! ### Helper lemmas and claim theorems -/

lemma daysBefore_4 : daysBefore 4 = 1095 := by decide
lemma daysBefore_5 : daysBefore 5 = 1461 := by decide
lemma daysBefore_6 : daysBefore 6 = 1826 := by decide

lemma jan1Sec_4 : jan1Sec 4 = 94608000 := by
  norm_num [jan1Sec, daysBefore_4]

lemma pyInt_4 : pyInt 4 = 4 := by
  norm_num [pyInt]

lemma isleap_4 : isleap 4 = true := by decide

lemma rint_0 : rint 0 = 0 := by
  norm_num [rint]

lemma processLine_ln1 :
    processLine ln1 = .ok (94608000, [4, -75, 1, 100, 1/100]) := by
  norm_num [processLine, floatList, floatTok, ln1, tokN, tokS, pyInt, isleap,
    rint, jan1Sec, daysBefore_4]

lemma processLine_ln2 :
    processLine ln2 = .ok (126230400, [5, -76, 2, 200, 1/50]) := by
  norm_num [processLine, floatList, floatTok, ln2, tokN, tokS, pyInt, isleap,
    rint, jan1Sec, daysBefore_5]

lemma processLine_ln3 :
    processLine ln3 = .ok (157766400, [6, -77, 3, 300, 3/100]) := by
  norm_num [processLine, floatList, floatTok, ln3, tokN, tokS, pyInt, isleap,
    rint, jan1Sec, daysBefore_6]

lemma processLine_lnBad :
    processLine lnBad = .ok (110419200, [9/2, -75, 0, 100, 1/100]) := by
  norm_num [processLine, floatList, floatTok, lnBad, tokN, tokS, pyInt, isleap,
    rint, jan1Sec, daysBefore_4]

lemma readFile_ex :
    readFile [ln3, ln1, ln2] =
      .ok [⟨157766400, 6, -77, 3, 300, 3/100⟩,
           ⟨94608000, 4, -75, 1, 100, 1/100⟩,
           ⟨126230400, 5, -76, 2, 200, 1/50⟩] := by
  norm_num [readFile, readLines, processLine_ln1, processLine_ln2,
    processLine_ln3, rowOf]

lemma determineEPSG_empty_south (q : ℚ) (h : q < -55) :
    determineEPSG (mkStation "NIT3") q =
      .ok { mkStation "NIT3" with epsg := some 3031, lltoxy := some 3031 } := by
  norm_num [determineEPSG, npTruthGT, mkStation, h]

lemma addData_stEx :
    addData projEx pscaleEx (mkStation "NIT3") [ln3, ln1, ln2] = .ok stEx := by
  norm_num [addData, addDataMerge, readFile_ex, determineEPSG_empty_south,
    projEx]
  norm_num [mkStation, sortByEpoch, argsort, gets, mean, pscaleEx, stEx,
    List.insertionSort, List.orderedInsert, List.getD, List.range,
    List.range.loop]


lemma processLine_lnNorth :
    processLine lnNorth = .ok (94608000, [4, 70, 0, 100, 1/100]) := by
  norm_num [processLine, floatList, floatTok, lnNorth, tokN, tokS, pyInt,
    isleap, rint, jan1Sec, daysBefore_4]


lemma processLine_lnShort :
    processLine lnShort = .ok (94608000, [4, -75, 1, 1/100]) := by
  norm_num [processLine, floatList, floatTok, lnShort, tokN, tokS, pyInt,
    isleap, rint, jan1Sec, daysBefore_4]

lemma addData_short :
    addData projEx pscaleEx (mkStation "NIT3") [ln1, lnShort] =
      .error "ValueError: inhomogeneous transpose" := by
  norm_num [addData, addDataMerge, readFile, readLines, processLine_ln1,
    processLine_lnShort]

lemma readFile_bad :
    readFile [ln1, ln2, lnBad, ln3] =
      .ok [⟨94608000, 4, -75, 1, 100, 1/100⟩,
           ⟨126230400, 5, -76, 2, 200, 1/50⟩,
           ⟨110419200, 9/2, -75, 0, 100, 1/100⟩,
           ⟨157766400, 6, -77, 3, 300, 3/100⟩] := by
  norm_num [readFile, readLines, processLine_ln1, processLine_ln2,
    processLine_ln3, processLine_lnBad, rowOf]

lemma addData_bad :
    addData projEx pscaleEx (mkStation "NIT3") [ln1, ln2, lnBad, ln3] =
      .ok { stationID := "NIT3"
            date := [94608000, 110419200, 126230400, 157766400]
            epoch := [4, 9/2, 5, 6]
            lat := [-75, -75, -76, -77]
            lon := [1, 0, 2, 3]
            x := [1, 0, 2, 3]
            y := [-75, -75, -76, -77]
            z := [100, 100, 200, 300]
            sigma3 := [1/100, 1/100, 1/50, 3/100]
            epsg := some 3031
            lltoxy := some 3031
            meanLat := -303/4
            projLengthScale := 1 } := by
  norm_num [addData, addDataMerge, readFile_bad, determineEPSG_empty_south,
    projEx]
  norm_num [mkStation, sortByEpoch, argsort, gets, mean, pscaleEx,
    List.insertionSort, List.orderedInsert, List.getD, List.range,
    List.range.loop]

lemma readFile_north :
    readFile [lnNorth] = .ok [⟨94608000, 4, 70, 0, 100, 1/100⟩] := by
  norm_num [readFile, readLines, processLine_lnNorth, rowOf]

lemma determineEPSG_empty_north :
    determineEPSG (mkStation "NIT3") 70 =
      .error "pyproj CRSError: from_epsg could not parse None" := by
  norm_num [determineEPSG, npTruthGT, mkStation]

lemma addData_north :
    addData projEx pscaleEx (mkStation "NIT3") [lnNorth] =
      .error "pyproj CRSError: from_epsg could not parse None" := by
  norm_num [addData, addDataMerge, readFile_north, determineEPSG_empty_north]

lemma inRangeCount_full : inRangeCount stEx 94608000 157766400 = 3 := by
  norm_num [inRangeCount, inRangeMask, stEx, List.count]

lemma computeVelocity_full :
    computeVelocity stEx 94608000 157766400 10 = .ok (1, -1) := by
  norm_num [computeVelocity, subsetXYZ, inRangeMask, maskFilter,
    linregressSlope, mean, stEx, List.count, List.filterMap_cons]

lemma inRangeCount_empty : inRangeCount stEx 0 1 = 0 := by
  norm_num [inRangeCount, inRangeMask, stEx, List.count]

lemma computeVelocity_empty :
    computeVelocity stEx 0 1 10 = .error unpackMsg := by
  norm_num [computeVelocity, subsetXYZ, inRangeMask, stEx, List.count]

lemma ptToPt_sparse :
    computeVelocityPtToPt stEx 94608000 126230400 10 12 = .error unpackMsg := by
  norm_num [computeVelocityPtToPt, subsetXYZ, inRangeMask, stEx, List.count]


lemma ts_bogus_window :
    computeVelocityTimeSeries stEx 94608000 (94608000 + 3 * 86400) 24 24
      "bogus" none 10 =
    (["Invalid method bogus keyword, must be point or regression"],
     .error "NameError: name vx is not defined") := by
  norm_num [computeVelocityTimeSeries, tsLoop, stepVel,
    (show ¬("bogus" = "point") from by simp),
    (show ¬("bogus" = "regression") from by simp),
    (show ("Invalid method " ++ "bogus" ++ " keyword, must be point or regression") = "Invalid method bogus keyword, must be point or regression" from rfl)]

lemma ts_bogus_empty :
    computeVelocityTimeSeries stEx 0 0 24 24 "bogus" none 10 =
    (["Invalid method bogus keyword, must be point or regression"],
     .ok ([], [], [])) := by
  norm_num [computeVelocityTimeSeries, tsLoop, stepVel,
    (show ¬("bogus" = "point") from by simp),
    (show ¬("bogus" = "regression") from by simp),
    (show ("Invalid method " ++ "bogus" ++ " keyword, must be point or regression") = "Invalid method bogus keyword, must be point or regression" from rfl)]

lemma ts_boundary :
    (computeVelocityTimeSeries stEx 0 86400 24 24 "regression" none 10).2 =
      .ok ([], [], []) := by
  norm_num [computeVelocityTimeSeries, tsLoop, stepVel,
    (show ("regression" : String) = "regression" from rfl)]

lemma claimWindowStarts_boundary :
    claimWindowStarts 86400 24 24 10 0 = [0] := by
  norm_num [claimWindowStarts]

lemma computeVelocity_window0 :
    computeVelocity stEx 94608000 127008000 = .ok (1, -1) := by
  norm_num [computeVelocity, subsetXYZ, inRangeMask, maskFilter,
    linregressSlope, mean, stEx, List.count, List.filterMap_cons]

lemma ts_witness_eval :
    computeVelocityTimeSeries stEx 94608000 127050000 9000 24
      "regression" none 3 = ([], .ok ([110808000], [1], [-1])) := by
  norm_num [computeVelocityTimeSeries, tsLoop, stepVel, computeVelocity_window0,
    (show ¬(("regression" : String) = "point") from by simp)]

lemma windowStarts_witness_eval :
    windowStarts 127050000 9000 24 3 94608000 = [94608000] := by
  norm_num [windowStarts]

lemma argsort_perm (l : List ℚ) : (argsort l).Perm (List.range l.length) :=
  List.perm_insertionSort _ _

lemma argsort_pairwise (l : List ℚ) :
    (argsort l).Pairwise (fun i j => l.getD i 0 ≤ l.getD j 0) := by
  have ht : IsTotal ℕ (fun i j => l.getD i 0 ≤ l.getD j 0) :=
    ⟨fun a b => le_total _ _⟩
  have hr : IsTrans ℕ (fun i j => l.getD i 0 ≤ l.getD j 0) :=
    ⟨fun a b c hab hbc => le_trans hab hbc⟩
  exact List.sorted_insertionSort _ _

lemma gets_argsort_sorted (l : List ℚ) :
    (gets l (argsort l)).Sorted (fun a b => a ≤ b) := by
  unfold gets
  exact List.Pairwise.map _ (fun a b h => h) (argsort_pairwise l)

/-- Claim C1 (confirmed): after every successful `addData` call — hence after
any sequence of ingestion calls in any order over any number of files — the
station's epoch sequence is non-decreasing, and all eight field sequences
(date, epoch, lat, lon, x, y, z, sigma3) of the new state are obtained from
the merged (new-batch-then-old) sequences by one single index permutation,
preserving per-sample correspondence. -/
theorem addData_sort_invariant (proj : ℤ → ℚ → ℚ → ℚ × ℚ)
    (pscale : ℤ → ℚ → ℚ) (st : Station) (lines : List (List Token))
    (st' : Station) (h : addData proj pscale st lines = .ok st') :
    st'.epoch.Sorted (fun a b => a ≤ b) ∧
    ∃ merged rows idx,
      addDataMerge proj st lines = .ok (merged, rows) ∧
      idx.Perm (List.range merged.epoch.length) ∧
      st'.date = gets merged.date idx ∧
      st'.epoch = gets merged.epoch idx ∧
      st'.lat = gets merged.lat idx ∧
      st'.lon = gets merged.lon idx ∧
      st'.x = gets merged.x idx ∧
      st'.y = gets merged.y idx ∧
      st'.z = gets merged.z idx ∧
      st'.sigma3 = gets merged.sigma3 idx := by
  cases hm : addDataMerge proj st lines with
  | error e => simp [addData, hm] at h
  | ok p =>
    obtain ⟨merged, rows⟩ := p
    simp only [addData, hm] at h
    cases h
    constructor
    · simpa [sortByEpoch] using gets_argsort_sorted merged.epoch
    · exact ⟨merged, rows, argsort merged.epoch, rfl, argsort_perm _,
        rfl, rfl, rfl, rfl, rfl, rfl, rfl, rfl⟩

lemma determineEPSG_preserve (st st1 : Station) (lat : ℚ) (e t : ℤ)
    (he : st.epsg = some e) (ht : st.lltoxy = some t)
    (h : determineEPSG st lat = .ok st1) :
    st1.epsg = some e ∧ st1.lltoxy = some t := by
  simp only [determineEPSG, he, ht] at h
  cases h
  exact ⟨rfl, rfl⟩

/-- Claim C9 (confirmed): once the station's EPSG code and
geographic→planar transform are set, every later successful `addData` call
leaves both unchanged (`_determineEPSG` keeps an already-set `self.epsg` and
an already-built `self.lltoxy`, and no other statement writes them). -/
theorem addData_preserves_epsg_transform (proj : ℤ → ℚ → ℚ → ℚ × ℚ)
    (pscale : ℤ → ℚ → ℚ) (st : Station) (lines : List (List Token))
    (st' : Station) (e t : ℤ) (he : st.epsg = some e) (ht : st.lltoxy = some t)
    (h : addData proj pscale st lines = .ok st') :
    st'.epsg = some e ∧ st'.lltoxy = some t := by
  cases hr : readFile lines with
  | error msg => simp [addData, addDataMerge, hr] at h
  | ok rows =>
    cases hd : determineEPSG st ((rows.map Row.lat).getD 0 0) with
    | error msg =>
      simp only [addData, addDataMerge, hr, hd] at h
      exact Except.noConfusion h
    | ok st1 =>
      obtain ⟨h1, h2⟩ := determineEPSG_preserve st st1 _ e t he ht hd
      simp only [addData, addDataMerge, hr, hd] at h
      cases h
      simpa [sortByEpoch] using ⟨h1, h2⟩

/-- Claim C10 (confirmed): when the in-range sample count is below
`minPoints`, `subsetXYZ` returns the 3-component `(nan, nan, nan)` tuple,
and otherwise the 5-component data tuple; both internal callers unpack the
result into five variables, so on the insufficient-data path
`computeVelocity` (whose subset call uses threshold 1) and
`computeVelocityPtToPt` raise the unpacking `ValueError` instead of
receiving a 5-component sentinel. -/
theorem subsetXYZ_component_counts (st : Station) (d1 d2 : ℚ) (mp : ℕ)
    (avgP : ℚ) :
    (numComponents (subsetXYZ st d1 d2 mp) =
      if inRangeCount st d1 d2 < mp then 3 else 5) ∧
    (inRangeCount st d1 d2 = 0 →
      computeVelocity st d1 d2 mp = .error unpackMsg) ∧
    (inRangeCount st (d1 - avgP * 3600) (d1 + avgP * 3600) < mp →
      computeVelocityPtToPt st d1 d2 mp avgP = .error unpackMsg) := by
  refine ⟨?_, ?_, ?_⟩
  · unfold subsetXYZ inRangeCount
    split_ifs with hc <;> simp [numComponents, hc]
  · intro h0
    have hs : subsetXYZ st d1 d2 1 = .nan3 := by
      unfold subsetXYZ
      rw [if_pos]
      unfold inRangeCount at h0
      omega
    simp [computeVelocity, hs]
  · intro hlt
    have hs : subsetXYZ st (d1 - avgP * 3600) (d1 + avgP * 3600) mp = .nan3 := by
      unfold subsetXYZ
      rw [if_pos]
      unfold inRangeCount at hlt
      omega
    simp [computeVelocityPtToPt, hs]

lemma maskFilter_map_self {α : Type} (p : α → Bool) :
    ∀ l : List α, maskFilter (l.map p) l = l.filter p
  | [] => by simp [maskFilter]
  | a :: t => by
    have ih := maskFilter_map_self p t
    by_cases h : p a <;>
      simp [maskFilter, List.filterMap_cons, h, List.filter_cons, ih,
        maskFilter] at ih ⊢ <;> simp [ih]

lemma maskFilter_zip {α β : Type} :
    ∀ (m : List Bool) (a : List α) (b : List β),
      maskFilter m (a.zip b) = (maskFilter m a).zip (maskFilter m b)
  | [], a, b => by simp [maskFilter]
  | mb :: m, [], b => by simp [maskFilter]
  | mb :: m, x :: a, [] => by
    have ih := maskFilter_zip m a ([] : List β)
    simp only [maskFilter] at ih ⊢
    cases mb <;> simp [List.filterMap_cons, ih]
  | mb :: m, x :: a, y :: b => by
    have ih := maskFilter_zip m a b
    simp only [maskFilter] at ih ⊢
    cases mb <;> simp [List.filterMap_cons, ih]

lemma maskFilter_map_zip {α β : Type} (p : α → Bool) :
    ∀ (a : List α) (b : List β),
      maskFilter (a.map p) (a.zip b) = (a.zip b).filter (fun r => p r.1)
  | [], b => by simp [maskFilter]
  | x :: a, [] => by simp [maskFilter]
  | x :: a, y :: b => by
    have ih := maskFilter_map_zip p a b
    simp only [maskFilter] at ih ⊢
    by_cases h : p x <;>
      simp [List.filterMap_cons, h, List.filter_cons, ih]

/-- Claim C4 (confirmed): for dates `d1 ≤ d2`, a successful
`subsetXYZ d1 d2` returns exactly the samples whose timestamp lies in the
closed interval `[d1, d2]`: the returned dates are the filter of the stored
dates by `d1 ≤ t ∧ t ≤ d2` (so samples with timestamp equal to `d1` or `d2`
are included), and the returned (date, x, y, z, epoch) rows are exactly the
stored rows whose date satisfies the same closed-interval predicate. -/
theorem subsetXYZ_closed_interval (st : Station) (d1 d2 : ℚ) (mp : ℕ)
    (ds xs ys zs es : List ℚ) (hle : d1 ≤ d2)
    (h : subsetXYZ st d1 d2 mp = .data5 ds xs ys zs es) :
    ds = st.date.filter (fun d => decide (d1 ≤ d) && decide (d ≤ d2)) ∧
    (∀ t ∈ st.date, d1 ≤ t → t ≤ d2 → t ∈ ds) ∧
    ds.zip (xs.zip (ys.zip (zs.zip es))) =
      (st.date.zip (st.x.zip (st.y.zip (st.z.zip st.epoch)))).filter
        (fun r => decide (d1 ≤ r.1) && decide (r.1 ≤ d2)) := by
  simp only [subsetXYZ] at h
  split at h
  · exact absurd h (by simp)
  · injection h with h1 h2 h3 h4 h5
    have hm : inRangeMask st d1 d2 =
        st.date.map (fun d => decide (d1 ≤ d) && decide (d ≤ d2)) := rfl
    rw [hm] at h1 h2 h3 h4 h5
    subst h1 h2 h3 h4 h5
    refine ⟨maskFilter_map_self _ _, ?_, ?_⟩
    · intro t ht h1t h2t
      rw [maskFilter_map_self]
      simp [List.mem_filter, ht, h1t, h2t]
    · rw [← maskFilter_zip, ← maskFilter_zip, ← maskFilter_zip,
        ← maskFilter_zip, maskFilter_map_zip]


lemma rint_nearest (q : ℚ) : |(rint q : ℚ) - q| ≤ 1/2 := by
  have h0 : (0 : ℚ) ≤ q - ⌊q⌋ := by
    have := Int.floor_le q
    linarith
  have h1 : q - ⌊q⌋ < 1 := by
    have := Int.lt_floor_add_one q
    linarith
  simp only [rint]
  split_ifs with ha hb hc <;> rw [abs_le] <;> constructor <;> push_cast <;>
    linarith

/-- Claim C8 (confirmed): for every successfully processed line, the
decimal-year epoch (the first numeric field) is decoded by splitting it into
the integer year and fractional remainder, converting the remainder to
seconds as remainder × (365 + 1 if leap else 365) × 86400, rounding to the
nearest whole second (`np.rint`; the distance to the rounded value is at
most 1/2), and adding that many seconds to midnight January 1 of that year.
-/
theorem processLine_epoch_decoding (toks : List Token) (d : ℚ) (ld : List ℚ)
    (h : processLine toks = .ok (d, ld)) :
    ∃ (e : ℚ) (rest : List ℚ),
      ld = e :: rest ∧
      d = jan1Sec (pyInt e) +
        ((rint ((e - (pyInt e : ℚ)) *
          (365 + (if isleap (pyInt e) then 1 else 0)) * 86400) : ℤ) : ℚ) ∧
      |((rint ((e - (pyInt e : ℚ)) *
          (365 + (if isleap (pyInt e) then 1 else 0)) * 86400) : ℤ) : ℚ) -
        (e - (pyInt e : ℚ)) *
          (365 + (if isleap (pyInt e) then 1 else 0)) * 86400| ≤ 1/2 := by
  unfold processLine at h
  cases hf : floatList toks.dropLast with
  | error msg => rw [hf] at h; exact Except.noConfusion h
  | ok ldata =>
    rw [hf] at h
    cases ldata with
    | nil => exact Except.noConfusion h
    | cons e rest =>
      injection h with h1
      injection h1 with hd hld
      exact ⟨e, rest, hld.symm, hd.symm, rint_nearest _⟩

lemma tsLoop_ok (st : Station) (method : String) (d2 dT sI avgP : ℚ) :
    ∀ (fuel : ℕ) (cur : ℚ) (ds0 vxs0 vys0 ds vxs vys : List ℚ),
      tsLoop st method d2 dT sI avgP fuel cur ds0 vxs0 vys0 =
        .ok (ds, vxs, vys) →
      ds = ds0 ++ (windowStarts d2 dT sI fuel cur).map (fun s => s + dT * 1800) ∧
      vxs.length = vxs0.length + (windowStarts d2 dT sI fuel cur).length ∧
      vys.length = vys0.length + (windowStarts d2 dT sI fuel cur).length
  | 0, cur, ds0, vxs0, vys0, ds, vxs, vys => by
    intro h
    exact Except.noConfusion h
  | fuel + 1, cur, ds0, vxs0, vys0, ds, vxs, vys => by
    intro h
    simp only [tsLoop] at h
    by_cases hc : cur + dT * 3600 < d2
    · rw [if_pos hc] at h
      cases hv : stepVel st method dT avgP cur with
      | error e => rw [hv] at h; exact Except.noConfusion h
      | ok v =>
        rw [hv] at h
        obtain ⟨ih1, ih2, ih3⟩ := tsLoop_ok st method d2 dT sI avgP fuel
          (cur + sI * 3600) (ds0 ++ [cur + dT * 1800]) (vxs0 ++ [v.1])
          (vys0 ++ [v.2]) ds vxs vys h
        rw [windowStarts, if_pos hc]
        refine ⟨?_, ?_, ?_⟩
        · rw [ih1]; simp
        · rw [ih2]; simp [List.length_append]; omega
        · rw [ih3]; simp [List.length_append]; omega
    · rw [if_neg hc] at h
      injection h with h1
      injection h1 with hds hrest
      injection hrest with hvxs hvys
      subst hds hvxs hvys
      rw [windowStarts, if_neg hc]
      simp

/-- Claim C7 (amended): on a normal return, `computeVelocityTimeSeries`
evaluates one window per start time, starting at `date1` and stepping by
`sampleInterval` hours, for every start while start + dT hours is strictly
less than `date2` (a window ending exactly on `date2` is not evaluated);
each step appends the window midpoint start + dT/2 hours, and the three
returned sequences (midpoints, vx, vy) have equal length and are
index-aligned. -/
theorem timeSeries_strict_windows (st : Station) (d1 d2 dT sI : ℚ)
    (method : String) (avgPO : Option ℚ) (fuel : ℕ) (ds vxs vys : List ℚ)
    (h : (computeVelocityTimeSeries st d1 d2 dT sI method avgPO fuel).2 =
      .ok (ds, vxs, vys)) :
    ds = (windowStarts d2 dT sI fuel d1).map (fun s => s + dT * 1800) ∧
    ds.length = vxs.length ∧ ds.length = vys.length := by
  simp only [computeVelocityTimeSeries] at h
  obtain ⟨h1, h2, h3⟩ := tsLoop_ok st method d2 dT sI _ fuel d1 [] [] []
    ds vxs vys h
  subst h1
  simp at h2 h3 ⊢
  omega

lemma subset_mid :
    subsetXYZ stEx 94608000 126230400 1 =
      .data5 [94608000, 126230400] [1, 2] [-75, -76] [100, 200] [4, 5] := by
  norm_num [subsetXYZ, inRangeMask, maskFilter, stEx, List.count,
    List.filterMap_cons]

lemma determineEPSG_stEx : determineEPSG stEx (-75) = .ok stEx := by
  norm_num [determineEPSG, stEx]

lemma readFile_ln1 : readFile [ln1] = .ok [⟨94608000, 4, -75, 1, 100, 1/100⟩] := by
  norm_num [readFile, readLines, processLine_ln1, rowOf]

lemma addData_stEx2 : addData projEx pscaleEx stEx [ln1] = .ok stEx2 := by
  norm_num [addData, addDataMerge, readFile_ln1, determineEPSG_stEx, projEx]
  norm_num [sortByEpoch, argsort, gets, mean, pscaleEx, stEx, stEx2,
    List.insertionSort, List.orderedInsert, List.getD, List.range,
    List.range.loop]

theorem addData_sort_invariant_witness :
    stEx.epoch.Sorted (fun a b => a ≤ b) ∧
    ∃ merged rows idx,
      addDataMerge projEx (mkStation "NIT3") [ln3, ln1, ln2] = .ok (merged, rows) ∧
      idx.Perm (List.range merged.epoch.length) ∧
      stEx.date = gets merged.date idx ∧
      stEx.epoch = gets merged.epoch idx ∧
      stEx.lat = gets merged.lat idx ∧
      stEx.lon = gets merged.lon idx ∧
      stEx.x = gets merged.x idx ∧
      stEx.y = gets merged.y idx ∧
      stEx.z = gets merged.z idx ∧
      stEx.sigma3 = gets merged.sigma3 idx :=
  addData_sort_invariant projEx pscaleEx (mkStation "NIT3") [ln3, ln1, ln2]
    stEx addData_stEx

/-- Claim C2 (code bug): the claim says a window with fewer than `minPoints`
samples makes both estimators return `(NaN, NaN)` without raising.
Evaluating the embedded code: `computeVelocity` never forwards `minPoints`
to `subsetXYZ` (with 3 in-range samples and `minPoints = 10` it still
computes a numeric velocity), and when `subsetXYZ` does return its
3-component NaN sentinel, the 5-variable unpacking in both callers raises
`ValueError` — the NaN pair is never returned.  The source's own docstring
("Return nan's if # of valid points is < minPoints") and its dead
`if x is np.nan` guard show the claim is the intent. -/
theorem computeVelocity_sentinel_behaviour :
    inRangeCount stEx 94608000 157766400 = 3 ∧
    computeVelocity stEx 94608000 157766400 10 = .ok (1, -1) ∧
    inRangeCount stEx 0 1 = 0 ∧
    computeVelocity stEx 0 1 10 = .error unpackMsg ∧
    computeVelocityPtToPt stEx 94608000 126230400 10 12 = .error unpackMsg :=
  ⟨inRangeCount_full, computeVelocity_full, inRangeCount_empty,
   computeVelocity_empty, ptToPt_sparse⟩

/-- Claim C3 (code bug): the claim says malformed or station-mismatched
lines are skipped after the warning and the retained count grows by exactly
the number of valid station-matching lines.  Evaluating the embedded code on
three valid `NIT3` lines plus one six-field line for station `XXXX`: the
warning condition holds for that line yet 4 samples are retained, because
the source prints "skipping line" but has no `continue`.  A wrong
field-count line is not skipped either: it makes the final transpose/unpack
raise `ValueError`. -/
theorem addData_ingests_warned_line :
    List.countP (validLine "NIT3") [ln1, ln2, lnBad, ln3] = 3 ∧
    warnsOn "NIT3" lnBad = true ∧
    (addData projEx pscaleEx (mkStation "NIT3") [ln1, ln2, lnBad, ln3]).map
      (fun s => s.epoch.length) = .ok 4 ∧
    warnsOn "NIT3" lnShort = true ∧
    addData projEx pscaleEx (mkStation "NIT3") [ln1, lnShort] =
      .error "ValueError: inhomogeneous transpose" := by
  refine ⟨by decide, by decide, ?_, by decide, addData_short⟩
  rw [addData_bad]
  rfl

/-- Claim C5 (code bug): the claim says a seed latitude above 55° selects
EPSG 3413 on first ingestion.  In the source the northern branch tests
`self.lat > 55` — the stored latitude array, empty on first ingestion —
instead of the seed latitude, so EPSG stays unset and the CRS construction
fails; ingestion of a 70°N file errors instead of selecting 3413.  The
southern branch, which does use the seed latitude, selects 3031. -/
theorem determineEPSG_northern_seed_fails :
    (mkStation "NIT3").epsg = none ∧
    (55 : ℚ) < 70 ∧
    determineEPSG (mkStation "NIT3") 70 =
      .error "pyproj CRSError: from_epsg could not parse None" ∧
    addData projEx pscaleEx (mkStation "NIT3") [lnNorth] =
      .error "pyproj CRSError: from_epsg could not parse None" ∧
    (determineEPSG (mkStation "NIT3") (-70)).map Station.epsg =
      .ok (some 3031) := by
  refine ⟨rfl, by norm_num, determineEPSG_empty_north, addData_north, ?_⟩
  rw [determineEPSG_empty_south (-70) (by norm_num)]
  rfl

/-- Claim C6 (code bug): the claim says an unrecognised method is rejected
immediately with no part of the sliding-window computation performed.  In
the source the error is only printed and execution continues: with at least
one fitting window the loop body runs and raises `NameError` (`vx` never
assigned), and with no fitting window the call completes normally and
returns three empty series despite the invalid method. -/
theorem invalid_method_still_computes :
    computeVelocityTimeSeries stEx 94608000 (94608000 + 3 * 86400) 24 24
      "bogus" none 10 =
    (["Invalid method bogus keyword, must be point or regression"],
     .error "NameError: name vx is not defined") ∧
    computeVelocityTimeSeries stEx 0 0 24 24 "bogus" none 10 =
    (["Invalid method bogus keyword, must be point or regression"],
     .ok ([], [], [])) :=
  ⟨ts_bogus_window, ts_bogus_empty⟩

/-- Claim C7 (counterexample): with `date2 - date1` equal to exactly `dT`
hours the claimed rule — one window per start until start + dT hours would
exceed date2 — yields one window, whose end lands exactly on `date2`; but
the source's loop guard is strict (`currentDate + timedelta(hours=dT) <
date2`), so no window is evaluated and the returned series are empty. -/
theorem timeSeries_boundary_counterexample :
    ¬ C7ClaimAt stEx 0 86400 24 24 10 := by
  intro hclaim
  obtain ⟨h1, _, _⟩ := hclaim [] [] [] ts_boundary
  rw [claimWindowStarts_boundary] at h1
  simp at h1

theorem timeSeries_strict_windows_witness :
    ([110808000] : List ℚ) =
      (windowStarts 127050000 9000 24 3 94608000).map
        (fun s => s + 9000 * 1800) ∧
    ([110808000] : List ℚ).length = ([1] : List ℚ).length ∧
    ([110808000] : List ℚ).length = ([-1] : List ℚ).length :=
  timeSeries_strict_windows stEx 94608000 127050000 9000 24 "regression"
    none 3 [110808000] [1] [-1] (by rw [ts_witness_eval])

theorem processLine_epoch_decoding_witness :
    ∃ (e : ℚ) (rest : List ℚ),
      ([9/2, -75, 0, 100, 1/100] : List ℚ) = e :: rest ∧
      (110419200 : ℚ) = jan1Sec (pyInt e) +
        ((rint ((e - (pyInt e : ℚ)) *
          (365 + (if isleap (pyInt e) then 1 else 0)) * 86400) : ℤ) : ℚ) ∧
      |((rint ((e - (pyInt e : ℚ)) *
          (365 + (if isleap (pyInt e) then 1 else 0)) * 86400) : ℤ) : ℚ) -
        (e - (pyInt e : ℚ)) *
          (365 + (if isleap (pyInt e) then 1 else 0)) * 86400| ≤ 1/2 :=
  processLine_epoch_decoding lnBad 110419200 [9/2, -75, 0, 100, 1/100]
    processLine_lnBad

theorem addData_preserves_epsg_transform_witness :
    stEx2.epsg = some 3031 ∧ stEx2.lltoxy = some 3031 :=
  addData_preserves_epsg_transform projEx pscaleEx stEx [ln1] stEx2 3031 3031
    rfl rfl addData_stEx2

theorem subsetXYZ_closed_interval_witness :
    ([94608000, 126230400] : List ℚ) =
      stEx.date.filter
        (fun d => decide ((94608000 : ℚ) ≤ d) && decide (d ≤ 126230400)) ∧
    (∀ t ∈ stEx.date, (94608000 : ℚ) ≤ t → t ≤ 126230400 →
      t ∈ ([94608000, 126230400] : List ℚ)) ∧
    ([94608000, 126230400] : List ℚ).zip
        (([1, 2] : List ℚ).zip (([-75, -76] : List ℚ).zip
          (([100, 200] : List ℚ).zip ([4, 5] : List ℚ)))) =
      (stEx.date.zip (stEx.x.zip (stEx.y.zip (stEx.z.zip stEx.epoch)))).filter
        (fun r => decide ((94608000 : ℚ) ≤ r.1) && decide (r.1 ≤ 126230400)) :=
  subsetXYZ_closed_interval stEx 94608000 126230400 1 [94608000, 126230400]
    [1, 2] [-75, -76] [100, 200] [4, 5] (by norm_num) subset_mid

theorem subsetXYZ_component_counts_witness :
    numComponents (subsetXYZ stEx 0 1 1) = 3 ∧
    computeVelocity stEx 0 1 1 = .error unpackMsg ∧
    computeVelocityPtToPt stEx 0 1 1 12 = .error unpackMsg := by
  have h := subsetXYZ_component_counts stEx 0 1 1 12
  refine ⟨?_, h.2.1 inRangeCount_empty,
    h.2.2 (by norm_num [inRangeCount, inRangeMask, stEx, List.count])⟩
  rw [h.1, if_pos]
  rw [inRangeCount_empty]
  omega
end NisarStation
